import Mathlib

/-!
Verification of the threshold-based temporary-layer input processor
(`src/config/src/input_processor_temp_layer_threshold.c`).

The C module is shallowly embedded: the mutable `struct
temp_layer_threshold_state` becomes a Lean structure, each C function
becomes a pure Lean function returning the updated state together with
the list of externally visible layer-control calls it makes
(`zmk_keymap_layer_activate` / `zmk_keymap_layer_deactivate`), and the
two `k_work_delayable` timer slots are modelled as optional absolute
deadlines: `k_work_reschedule(w, K_MSEC(d))` at time `now` stores
`some (now + d)` and `k_work_cancel_delayable` stores `none`.
Machine integers are modelled by `Int`/`Nat`; the one narrowing that
matters is the store of the `uint8_t` layer id into the `int8_t`
`active_layer` field, embedded explicitly as `toInt8`.
-/

namespace TempLayerThreshold

/-- Zephyr input event type `INPUT_EV_REL` (relative axis event). -/
def INPUT_EV_REL : Nat := 2

/-- Zephyr input code `INPUT_REL_X`. -/
def INPUT_REL_X : Nat := 0

/-- Zephyr input code `INPUT_REL_Y`. -/
def INPUT_REL_Y : Nat := 1

/-- Return value of the processor: `ZMK_INPUT_PROC_CONTINUE` (the module
never returns anything else). -/
inductive ProcResult where
  | Continue
deriving Repr, DecidableEq

/-- Externally visible side effects: calls to the keymap layer-control
primitive. `activate` carries the `uint8_t` layer argument of
`zmk_keymap_layer_activate`, `deactivate` the (possibly negative)
`int8_t` argument of `zmk_keymap_layer_deactivate`. -/
inductive Effect where
  | activate (layer : Nat)
  | deactivate (layer : Int)
deriving Repr, DecidableEq

/-- The C struct `temp_layer_threshold_config`: immutable configuration.
The `num_positions`/`excluded_positions` array pair is modelled as a
single list. -/
structure temp_layer_threshold_config where
  threshold : Int
  threshold_time_ms : Int
  require_prior_idle_ms : Int
  excluded_positions : List Nat
deriving Repr, DecidableEq

/-- The C struct `temp_layer_threshold_state`: mutable per-instance state.
The two `k_work_delayable` members are modelled as optional absolute
deadlines (`none` = no pending timer). -/
structure temp_layer_threshold_state where
  accumulated_x : Int
  accumulated_y : Int
  accumulation_start_time : Int
  active_layer : Int
  last_tapped_time : Int
  layer_active : Bool
  disable_deadline : Option Int
  reset_deadline : Option Int
deriving Repr, DecidableEq

/-- The C struct `input_event`: the fields the processor reads. -/
structure input_event where
  type : Nat
  code : Nat
  value : Int
deriving Repr, DecidableEq

/-- The C struct `zmk_position_state_changed`: the fields the listener reads.
`state` is true for a press, false for a release. -/
structure zmk_position_state_changed where
  position : Nat
  state : Bool
  timestamp : Int
deriving Repr, DecidableEq

/-- The C conversion `int8_t v = (uint8_t)n`: reduce modulo 256, then
reinterpret as a signed 8-bit value. -/
def toInt8 (n : Nat) : Int :=
  if n % 256 < 128 then ((n % 256 : Nat) : Int) else ((n % 256 : Nat) : Int) - 256

/-- The C function `layer_disable_callback`: the disable-timer work callback.  If the
layer is active and a non-negative layer id is stored, deactivate it and
clear the flags; otherwise do nothing. -/
def layer_disable_callback (s : temp_layer_threshold_state) :
    temp_layer_threshold_state × List Effect :=
  if s.layer_active = true ∧ 0 ≤ s.active_layer then
    ({ s with layer_active := false, active_layer := -1 },
     [Effect.deactivate s.active_layer])
  else
    (s, [])

/-- The C function `accumulation_reset_callback`: the accumulation-window work
callback. Unconditionally zeroes both accumulators. -/
def accumulation_reset_callback (s : temp_layer_threshold_state) :
    temp_layer_threshold_state :=
  { s with accumulated_x := 0, accumulated_y := 0 }

/-- The C function `is_position_excluded`: linear scan of the exclusion list. -/
def is_position_excluded (cfg : temp_layer_threshold_config)
    (position : Nat) : Bool :=
  cfg.excluded_positions.contains position

/-- The C function `position_state_changed_listener` for one device instance: ignore
release events entirely; on a press, deactivate a non-excluded-position
active layer (cancelling the pending disable timer), then record the
event timestamp. -/
def position_state_changed_listener (cfg : temp_layer_threshold_config)
    (s : temp_layer_threshold_state) (ev : zmk_position_state_changed) :
    temp_layer_threshold_state × List Effect :=
  if ev.state = false then
    (s, [])
  else
    let step :=
      if s.layer_active = true ∧ is_position_excluded cfg ev.position = false then
        ({ s with layer_active := false, active_layer := -1, disable_deadline := none },
         [Effect.deactivate s.active_layer])
      else
        (s, ([] : List Effect))
    ({ step.1 with last_tapped_time := ev.timestamp }, step.2)

/-- The C function `temp_layer_threshold_handle_event`: the motion-event processor.
`param1` is the layer id, `param2` the disable timeout in ms, `now` the
value of `k_uptime_get()` at the call. -/
def temp_layer_threshold_handle_event (cfg : temp_layer_threshold_config)
    (s : temp_layer_threshold_state) (event : input_event)
    (param1 : Nat) (param2 : Nat) (now : Int) :
    ProcResult × temp_layer_threshold_state × List Effect :=
  let layer : Nat := param1 % 256
  if 0 < cfg.require_prior_idle_ms ∧ now - s.last_tapped_time < cfg.require_prior_idle_ms then
    (ProcResult.Continue, s, [])
  else
    let s1 :=
      if event.type = INPUT_EV_REL then
        if event.code = INPUT_REL_X then
          { s with accumulated_x :=
              s.accumulated_x + (if 0 < event.value then event.value else -event.value) }
        else if event.code = INPUT_REL_Y then
          { s with accumulated_y :=
              s.accumulated_y + (if 0 < event.value then event.value else -event.value) }
        else s
      else s
    let total_movement := s1.accumulated_x + s1.accumulated_y
    let s2 := { s1 with reset_deadline := some (now + cfg.threshold_time_ms) }
    if s2.layer_active = true then
      (ProcResult.Continue,
       { s2 with disable_deadline := some (now + (param2 : Int)) }, [])
    else if cfg.threshold ≤ total_movement then
      (ProcResult.Continue,
       { s2 with layer_active := true, active_layer := toInt8 layer,
                 accumulated_x := 0, accumulated_y := 0,
                 disable_deadline := some (now + (param2 : Int)) },
       [Effect.activate layer])
    else
      (ProcResult.Continue, s2, [])

/-- The C function `temp_layer_threshold_init`: the state after driver initialisation. -/
def temp_layer_threshold_init : temp_layer_threshold_state :=
  { accumulated_x := 0
    accumulated_y := 0
    accumulation_start_time := 0
    active_layer := -1
    last_tapped_time := 0
    layer_active := false
    disable_deadline := none
    reset_deadline := none }

/-- One motion-event invocation of the processor: the `input_event`
together with the per-invocation parameters and the uptime at delivery. -/
structure MotionEv where
  event : input_event
  param1 : Nat
  param2 : Nat
  now : Int
deriving Repr, DecidableEq

/-- Deliver a sequence of motion events in order, collecting the layer
activate/deactivate calls that are emitted. -/
def run (cfg : temp_layer_threshold_config) :
    temp_layer_threshold_state → List MotionEv →
      temp_layer_threshold_state × List Effect
  | s, [] => (s, [])
  | s, e :: rest =>
    let step := temp_layer_threshold_handle_event cfg s e.event e.param1 e.param2 e.now
    let tail := run cfg step.2.1 rest
    (tail.1, step.2.2 ++ tail.2)

/-- The idle gate passes for a motion event delivered while
`last_tapped_time = last`: the require-prior-idle check does not
suppress it. -/
def gatePasses (cfg : temp_layer_threshold_config) (last : Int)
    (e : MotionEv) : Prop :=
  ¬ (0 < cfg.require_prior_idle_ms ∧ e.now - last < cfg.require_prior_idle_ms)

instance (cfg : temp_layer_threshold_config) (last : Int) (e : MotionEv) :
    Decidable (gatePasses cfg last e) := by
  unfold gatePasses; infer_instance

/-- The absolute motion magnitude a single event contributes to the
accumulators (zero for events the processor does not accumulate). -/
def deltaMag (e : MotionEv) : Int :=
  if e.event.type = INPUT_EV_REL then
    if e.event.code = INPUT_REL_X then
      (if 0 < e.event.value then e.event.value else -e.event.value)
    else if e.event.code = INPUT_REL_Y then
      (if 0 < e.event.value then e.event.value else -e.event.value)
    else 0
  else 0

/-- Total motion magnitude contributed by a sequence of events. -/
def accTotal (evs : List MotionEv) : Int :=
  (evs.map deltaMag).sum

/-- The accumulate block of `temp_layer_threshold_handle_event` (lines
122–128 of the C file) in isolation: add the event's absolute value to
the matching axis accumulator, ignoring non-relative events and unknown
axes. -/
def applyAccum (s : temp_layer_threshold_state) (m : MotionEv) :
    temp_layer_threshold_state :=
  if m.event.type = INPUT_EV_REL then
    if m.event.code = INPUT_REL_X then
      { s with accumulated_x :=
          s.accumulated_x + (if 0 < m.event.value then m.event.value else -m.event.value) }
    else if m.event.code = INPUT_REL_Y then
      { s with accumulated_y :=
          s.accumulated_y + (if 0 < m.event.value then m.event.value else -m.event.value) }
    else s
  else s

/-- The spec's state invariant: the layer-active flag holds exactly when
a valid (non-negative) layer id is stored. -/
def Inv (s : temp_layer_threshold_state) : Prop :=
  s.layer_active = true ↔ 0 ≤ s.active_layer

instance (s : temp_layer_threshold_state) : Decidable (Inv s) := by
  unfold Inv; infer_instance

theorem applyAccum_total (s : temp_layer_threshold_state) (m : MotionEv) :
    (applyAccum s m).accumulated_x + (applyAccum s m).accumulated_y =
      s.accumulated_x + s.accumulated_y + deltaMag m := by
  unfold applyAccum deltaMag
  split_ifs <;> simp <;> ring

theorem applyAccum_layer_active (s : temp_layer_threshold_state) (m : MotionEv) :
    (applyAccum s m).layer_active = s.layer_active := by
  unfold applyAccum; split_ifs <;> rfl

theorem applyAccum_last_tapped_time (s : temp_layer_threshold_state) (m : MotionEv) :
    (applyAccum s m).last_tapped_time = s.last_tapped_time := by
  unfold applyAccum; split_ifs <;> rfl

theorem applyAccum_active_layer (s : temp_layer_threshold_state) (m : MotionEv) :
    (applyAccum s m).active_layer = s.active_layer := by
  unfold applyAccum; split_ifs <;> rfl

theorem applyAccum_disable_deadline (s : temp_layer_threshold_state) (m : MotionEv) :
    (applyAccum s m).disable_deadline = s.disable_deadline := by
  unfold applyAccum; split_ifs <;> rfl

theorem deltaMag_nonneg (m : MotionEv) : 0 ≤ deltaMag m := by
  unfold deltaMag
  split_ifs <;> omega

theorem accTotal_nonneg (evs : List MotionEv) : 0 ≤ accTotal evs := by
  induction evs with
  | nil => simp [accTotal]
  | cons e rest ih =>
    have := deltaMag_nonneg e
    simp only [accTotal, List.map_cons, List.sum_cons]
    have h2 : (0 : Int) ≤ (rest.map deltaMag).sum := ih
    omega

theorem accTotal_cons (e : MotionEv) (evs : List MotionEv) :
    accTotal (e :: evs) = deltaMag e + accTotal evs := by
  simp [accTotal]

/-- The handler `temp_layer_threshold_handle_event` restated through `applyAccum`;
this is a definitional repackaging used by the proofs below. -/
theorem handle_event_unfold (cfg : temp_layer_threshold_config)
    (s : temp_layer_threshold_state) (m : MotionEv) :
    temp_layer_threshold_handle_event cfg s m.event m.param1 m.param2 m.now =
      if 0 < cfg.require_prior_idle_ms ∧
          m.now - s.last_tapped_time < cfg.require_prior_idle_ms then
        (ProcResult.Continue, s, [])
      else if (applyAccum s m).layer_active = true then
        (ProcResult.Continue,
         { applyAccum s m with
             reset_deadline := some (m.now + cfg.threshold_time_ms),
             disable_deadline := some (m.now + (m.param2 : Int)) }, [])
      else if cfg.threshold ≤
          (applyAccum s m).accumulated_x + (applyAccum s m).accumulated_y then
        (ProcResult.Continue,
         { applyAccum s m with
             layer_active := true, active_layer := toInt8 (m.param1 % 256),
             accumulated_x := 0, accumulated_y := 0,
             reset_deadline := some (m.now + cfg.threshold_time_ms),
             disable_deadline := some (m.now + (m.param2 : Int)) },
         [Effect.activate (m.param1 % 256)])
      else
        (ProcResult.Continue,
         { applyAccum s m with
             reset_deadline := some (m.now + cfg.threshold_time_ms) }, []) := by
  unfold temp_layer_threshold_handle_event applyAccum
  split_ifs <;> simp_all

/-- One motion event on an inactive state whose new total stays below
the threshold: only the accumulators and the reset deadline change, and
nothing is emitted. -/
theorem handle_event_inactive_below (cfg : temp_layer_threshold_config)
    (s : temp_layer_threshold_state) (m : MotionEv)
    (hinact : s.layer_active = false)
    (hgate : gatePasses cfg s.last_tapped_time m)
    (hlow : s.accumulated_x + s.accumulated_y + deltaMag m < cfg.threshold) :
    temp_layer_threshold_handle_event cfg s m.event m.param1 m.param2 m.now =
      (ProcResult.Continue,
       { applyAccum s m with
           reset_deadline := some (m.now + cfg.threshold_time_ms) }, []) := by
  unfold gatePasses at hgate
  rw [handle_event_unfold, if_neg hgate]
  rw [if_neg (by rw [applyAccum_layer_active, hinact]; exact Bool.false_ne_true)]
  rw [if_neg (by rw [applyAccum_total]; omega)]

/-- One motion event on an inactive state whose new total reaches the
threshold: the layer is activated, the accumulators are zeroed, both
deadlines are set, and exactly one activation call is emitted. -/
theorem handle_event_inactive_hit (cfg : temp_layer_threshold_config)
    (s : temp_layer_threshold_state) (m : MotionEv)
    (hinact : s.layer_active = false)
    (hgate : gatePasses cfg s.last_tapped_time m)
    (hhit : cfg.threshold ≤ s.accumulated_x + s.accumulated_y + deltaMag m) :
    temp_layer_threshold_handle_event cfg s m.event m.param1 m.param2 m.now =
      (ProcResult.Continue,
       { applyAccum s m with
           layer_active := true, active_layer := toInt8 (m.param1 % 256),
           accumulated_x := 0, accumulated_y := 0,
           reset_deadline := some (m.now + cfg.threshold_time_ms),
           disable_deadline := some (m.now + (m.param2 : Int)) },
       [Effect.activate (m.param1 % 256)]) := by
  unfold gatePasses at hgate
  rw [handle_event_unfold, if_neg hgate]
  rw [if_neg (by rw [applyAccum_layer_active, hinact]; exact Bool.false_ne_true)]
  rw [if_pos (by rw [applyAccum_total]; omega)]

/-- One motion event on an active state: the timeout slides and nothing
is emitted, whether or not the idle gate passes. -/
theorem handle_event_active_no_effect (cfg : temp_layer_threshold_config)
    (s : temp_layer_threshold_state) (m : MotionEv)
    (hact : s.layer_active = true) :
    ((temp_layer_threshold_handle_event cfg s m.event m.param1 m.param2 m.now).2.1.layer_active
       = true) ∧
    ((temp_layer_threshold_handle_event cfg s m.event m.param1 m.param2 m.now).2.1.last_tapped_time
       = s.last_tapped_time) ∧
    (temp_layer_threshold_handle_event cfg s m.event m.param1 m.param2 m.now).2.2 = [] := by
  rw [handle_event_unfold]
  by_cases hg : 0 < cfg.require_prior_idle_ms ∧
      m.now - s.last_tapped_time < cfg.require_prior_idle_ms
  · rw [if_pos hg]
    exact ⟨hact, rfl, rfl⟩
  · rw [if_neg hg, if_pos (by rw [applyAccum_layer_active]; exact hact)]
    exact ⟨by rw [applyAccum_layer_active]; exact hact,
           by rw [applyAccum_last_tapped_time], rfl⟩

/-- C6: when the prior-idle gate rejects the event, the handler is a
complete no-op: it returns `Continue`, leaves the state untouched, and
emits no layer-control call. -/
theorem C6_idle_gate_suppresses (cfg : temp_layer_threshold_config)
    (s : temp_layer_threshold_state) (e : input_event)
    (p1 p2 : Nat) (now : Int)
    (hidle : 0 < cfg.require_prior_idle_ms)
    (hrecent : now - s.last_tapped_time < cfg.require_prior_idle_ms) :
    temp_layer_threshold_handle_event cfg s e p1 p2 now =
      (ProcResult.Continue, s, []) := by
  simp [temp_layer_threshold_handle_event, hidle, hrecent]

/-- C6 witness: a concrete event 50 ms after the last key press with a
100 ms idle requirement is fully ignored. -/
theorem C6_idle_gate_suppresses_witness :
    temp_layer_threshold_handle_event
      { threshold := 50, threshold_time_ms := 100, require_prior_idle_ms := 100,
        excluded_positions := [] }
      { temp_layer_threshold_init with last_tapped_time := 40, accumulated_x := 49 }
      { type := 2, code := 0, value := 30 } 4 200 90 =
      (ProcResult.Continue,
       { temp_layer_threshold_init with last_tapped_time := 40, accumulated_x := 49 },
       []) :=
  C6_idle_gate_suppresses _ _ _ _ _ _ (by decide) (by decide)

/-- C7: the disable-timer callback is idempotent — on an inactive state
it is a no-op with no deactivation call, and a second delivery right
after a first one never changes the state nor emits anything, so two
consecutive deliveries deactivate at most once. -/
theorem C7_disable_callback_idempotent (s : temp_layer_threshold_state) :
    (s.layer_active = false → layer_disable_callback s = (s, [])) ∧
    layer_disable_callback (layer_disable_callback s).1 =
      ((layer_disable_callback s).1, []) ∧
    (layer_disable_callback s).2.length +
      (layer_disable_callback (layer_disable_callback s).1).2.length ≤ 1 := by
  refine ⟨fun hinact => ?_, ?_, ?_⟩
  · simp [layer_disable_callback, hinact]
  · by_cases h : s.layer_active = true ∧ 0 ≤ s.active_layer
    · simp [layer_disable_callback, h]
    · simp [layer_disable_callback, h]
  · by_cases h : s.layer_active = true ∧ 0 ≤ s.active_layer
    · simp [layer_disable_callback, h]
    · simp [layer_disable_callback, h]

/-- C7 witness: on a concrete active state the first delivery
deactivates, the second is a no-op; on the initial (inactive) state the
callback is a no-op outright. -/
theorem C7_disable_callback_idempotent_witness :
    layer_disable_callback temp_layer_threshold_init =
      (temp_layer_threshold_init, []) ∧
    layer_disable_callback
        (layer_disable_callback
          { temp_layer_threshold_init with
              layer_active := true, active_layer := 4,
              disable_deadline := some 200 }).1 =
      ((layer_disable_callback
          { temp_layer_threshold_init with
              layer_active := true, active_layer := 4,
              disable_deadline := some 200 }).1, []) :=
  ⟨(C7_disable_callback_idempotent temp_layer_threshold_init).1 rfl,
   (C7_disable_callback_idempotent
      { temp_layer_threshold_init with
          layer_active := true, active_layer := 4,
          disable_deadline := some 200 }).2.1⟩

/-- C2 counterexample: a release event (`state = false`) carrying
timestamp 100 does not update `last_tapped_time` (it stays 0), because
the listener returns before the timestamp store when `!ev->state`. -/
theorem C2_release_not_recorded :
    (position_state_changed_listener
        { threshold := 50, threshold_time_ms := 100, require_prior_idle_ms := 0,
          excluded_positions := [] }
        temp_layer_threshold_init
        { position := 3, state := false, timestamp := 100 }).1.last_tapped_time
      ≠ 100 := by
  decide

/-- C2 amended: only press events record their timestamp into
`last_tapped_time`; a release event leaves the state unchanged and emits
nothing. -/
theorem C2_press_records_timestamp (cfg : temp_layer_threshold_config)
    (s : temp_layer_threshold_state) (ev : zmk_position_state_changed) :
    (ev.state = true →
      (position_state_changed_listener cfg s ev).1.last_tapped_time = ev.timestamp) ∧
    (ev.state = false →
      position_state_changed_listener cfg s ev = (s, [])) := by
  constructor
  · intro hpress
    by_cases h : s.layer_active = true ∧ is_position_excluded cfg ev.position = false
    · simp [position_state_changed_listener, hpress, h]
    · simp [position_state_changed_listener, hpress, h]
  · intro hrel
    simp [position_state_changed_listener, hrel]

/-- C2 amended witness: a concrete press event records its timestamp. -/
theorem C2_press_records_timestamp_witness :
    (position_state_changed_listener
        { threshold := 50, threshold_time_ms := 100, require_prior_idle_ms := 0,
          excluded_positions := [] }
        temp_layer_threshold_init
        { position := 3, state := true, timestamp := 42 }).1.last_tapped_time = 42 :=
  (C2_press_records_timestamp _ _ _).1 rfl

/-- C4: a press on a non-excluded position while the layer is active
cancels the pending disable timer (`disable_deadline := none`),
deactivates the stored layer, clears `layer_active`/`active_layer`, and
records the timestamp — and nothing else happens. -/
theorem C4_press_deactivates (cfg : temp_layer_threshold_config)
    (s : temp_layer_threshold_state) (ev : zmk_position_state_changed)
    (hact : s.layer_active = true)
    (hpress : ev.state = true)
    (hexcl : is_position_excluded cfg ev.position = false) :
    position_state_changed_listener cfg s ev =
      ({ s with layer_active := false, active_layer := -1,
                disable_deadline := none,
                last_tapped_time := ev.timestamp },
       [Effect.deactivate s.active_layer]) := by
  simp [position_state_changed_listener, hpress, hact, hexcl]

/-- C4 witness: press on position 3 (not excluded) while layer 4 is
active with a pending disable timer. -/
theorem C4_press_deactivates_witness :
    position_state_changed_listener
        { threshold := 50, threshold_time_ms := 100, require_prior_idle_ms := 0,
          excluded_positions := [5] }
        { temp_layer_threshold_init with
            layer_active := true, active_layer := 4, disable_deadline := some 200 }
        { position := 3, state := true, timestamp := 160 } =
      ({ temp_layer_threshold_init with
           layer_active := false, active_layer := -1,
           disable_deadline := none, last_tapped_time := 160 },
       [Effect.deactivate 4]) := by
  have h := C4_press_deactivates
    { threshold := 50, threshold_time_ms := 100, require_prior_idle_ms := 0,
      excluded_positions := [5] }
    { temp_layer_threshold_init with
        layer_active := true, active_layer := 4, disable_deadline := some 200 }
    { position := 3, state := true, timestamp := 160 }
    rfl rfl (by decide)
  exact h

/-- C9: a press on an excluded position while the layer is active only
records the timestamp; the layer stays active, the stored layer id is
unchanged, and the pending disable deadline is neither cancelled nor
rescheduled. -/
theorem C9_excluded_press_frame (cfg : temp_layer_threshold_config)
    (s : temp_layer_threshold_state) (ev : zmk_position_state_changed)
    (hact : s.layer_active = true)
    (hpress : ev.state = true)
    (hexcl : is_position_excluded cfg ev.position = true) :
    position_state_changed_listener cfg s ev =
      ({ s with last_tapped_time := ev.timestamp }, []) := by
  simp [position_state_changed_listener, hpress, hexcl]

/-- C9 witness: press on excluded position 5 while layer 4 is active —
the state keeps `layer_active`, `active_layer = 4`, and the pending
deadline 200; only the timestamp changes. -/
theorem C9_excluded_press_frame_witness :
    position_state_changed_listener
        { threshold := 50, threshold_time_ms := 100, require_prior_idle_ms := 0,
          excluded_positions := [5] }
        { temp_layer_threshold_init with
            layer_active := true, active_layer := 4, disable_deadline := some 200 }
        { position := 5, state := true, timestamp := 160 } =
      ({ temp_layer_threshold_init with
           layer_active := true, active_layer := 4,
           disable_deadline := some 200, last_tapped_time := 160 }, []) := by
  have h := C9_excluded_press_frame
    { threshold := 50, threshold_time_ms := 100, require_prior_idle_ms := 0,
      excluded_positions := [5] }
    { temp_layer_threshold_init with
        layer_active := true, active_layer := 4, disable_deadline := some 200 }
    { position := 5, state := true, timestamp := 160 }
    rfl rfl (by decide)
  exact h

/-- C5: while the layer is active, a motion event passing the idle gate
reschedules the disable timer to fire `param2` ms after the event time
(replacing whatever deadline was pending), keeps the layer active, emits
no layer-control call (in particular no activation), and returns
`Continue`. -/
theorem C5_sliding_timeout (cfg : temp_layer_threshold_config)
    (s : temp_layer_threshold_state) (e : input_event)
    (p1 p2 : Nat) (now : Int)
    (hact : s.layer_active = true)
    (hgate : ¬ (0 < cfg.require_prior_idle_ms ∧
                now - s.last_tapped_time < cfg.require_prior_idle_ms)) :
    (temp_layer_threshold_handle_event cfg s e p1 p2 now).2.2 = [] ∧
    (temp_layer_threshold_handle_event cfg s e p1 p2 now).2.1.disable_deadline =
      some (now + (p2 : Int)) ∧
    (temp_layer_threshold_handle_event cfg s e p1 p2 now).2.1.layer_active = true ∧
    (temp_layer_threshold_handle_event cfg s e p1 p2 now).1 = ProcResult.Continue := by
  simp only [temp_layer_threshold_handle_event, if_neg hgate,
    INPUT_EV_REL, INPUT_REL_X, INPUT_REL_Y]
  by_cases ht : e.type = 2
  · by_cases hx : e.code = 0
    · simp [ht, hx, hact]
    · by_cases hy : e.code = 1
      · simp [ht, hx, hy, hact]
      · simp [ht, hx, hy, hact]
  · simp [ht, hact]

/-- C5 witness: spec scenario — layer active, pending deadline 200,
motion event at t = 150 with timeout 200 moves the deadline to 350. -/
theorem C5_sliding_timeout_witness :
    (temp_layer_threshold_handle_event
        { threshold := 50, threshold_time_ms := 100, require_prior_idle_ms := 0,
          excluded_positions := [] }
        { temp_layer_threshold_init with
            layer_active := true, active_layer := 4, disable_deadline := some 200 }
        { type := 2, code := 0, value := 1 } 4 200 150).2.1.disable_deadline =
      some 350 :=
  (C5_sliding_timeout
    { threshold := 50, threshold_time_ms := 100, require_prior_idle_ms := 0,
      excluded_positions := [] }
    { temp_layer_threshold_init with
        layer_active := true, active_layer := 4, disable_deadline := some 200 }
    { type := 2, code := 0, value := 1 } 4 200 150
    rfl (by decide)).2.1

/-- C8: the accumulation-reset callback zeroes both accumulators in
every state (touching nothing else that the threshold comparison reads),
and consequently a motion event delivered right after the reset — with
the layer inactive and the idle gate passing — activates exactly when
that single event's own magnitude reaches the threshold: the motion
accumulated before the reset no longer counts. -/
theorem C8_reset_zeroes_accumulators (cfg : temp_layer_threshold_config)
    (s : temp_layer_threshold_state) (e : input_event)
    (p1 p2 : Nat) (now : Int)
    (hinact : s.layer_active = false)
    (hgate : ¬ (0 < cfg.require_prior_idle_ms ∧
                now - s.last_tapped_time < cfg.require_prior_idle_ms)) :
    (accumulation_reset_callback s).accumulated_x = 0 ∧
    (accumulation_reset_callback s).accumulated_y = 0 ∧
    (accumulation_reset_callback s).layer_active = s.layer_active ∧
    (accumulation_reset_callback s).last_tapped_time = s.last_tapped_time ∧
    (temp_layer_threshold_handle_event cfg (accumulation_reset_callback s)
        e p1 p2 now).2.2 =
      (if cfg.threshold ≤ deltaMag { event := e, param1 := p1, param2 := p2, now := now }
       then [Effect.activate (p1 % 256)] else []) := by
  refine ⟨rfl, rfl, rfl, rfl, ?_⟩
  by_cases hth : cfg.threshold ≤
      deltaMag { event := e, param1 := p1, param2 := p2, now := now }
  · have h := handle_event_inactive_hit cfg (accumulation_reset_callback s)
      { event := e, param1 := p1, param2 := p2, now := now }
      hinact hgate (by dsimp only [accumulation_reset_callback]; omega)
    dsimp only at h
    rw [h, if_pos hth]
  · have h := handle_event_inactive_below cfg (accumulation_reset_callback s)
      { event := e, param1 := p1, param2 := p2, now := now }
      hinact hgate (by dsimp only [accumulation_reset_callback]; omega)
    dsimp only at h
    rw [h, if_neg hth]

/-- C8 witness: spec scenario — 49 units accumulated (just below the
threshold 50) are forgotten by the reset, so a following `X+30` event
does not activate. -/
theorem C8_reset_zeroes_accumulators_witness :
    (accumulation_reset_callback
        { temp_layer_threshold_init with accumulated_x := 49 }).accumulated_x = 0 ∧
    (temp_layer_threshold_handle_event
        { threshold := 50, threshold_time_ms := 100, require_prior_idle_ms := 0,
          excluded_positions := [] }
        (accumulation_reset_callback
          { temp_layer_threshold_init with accumulated_x := 49 })
        { type := 2, code := 0, value := 30 } 4 200 150).2.2 = [] := by
  have h := C8_reset_zeroes_accumulators
    { threshold := 50, threshold_time_ms := 100, require_prior_idle_ms := 0,
      excluded_positions := [] }
    { temp_layer_threshold_init with accumulated_x := 49 }
    { type := 2, code := 0, value := 30 } 4 200 150
    rfl (by decide)
  refine ⟨h.1, ?_⟩
  rw [h.2.2.2.2]
  decide

/-- C3 counterexample: the invariant holds initially, but one motion
event with layer id 128 (and threshold 0, so it activates immediately)
breaks it: `active_layer` receives the `int8_t` value -128 while
`layer_active` becomes true. -/
theorem C3_int8_truncation_breaks_invariant :
    Inv temp_layer_threshold_init ∧
    ¬ Inv (temp_layer_threshold_handle_event
        { threshold := 0, threshold_time_ms := 100, require_prior_idle_ms := 0,
          excluded_positions := [] }
        temp_layer_threshold_init
        { type := 2, code := 0, value := 0 } 128 200 0).2.1 := by
  decide

/-- C3 amended: the invariant `layer_active = true ↔ 0 ≤ active_layer`
holds in the initial state and is preserved by every operation, provided
every motion event's layer id reduces to at most 127 modulo 256 (so the
`int8_t` store keeps it non-negative). -/
theorem C3_invariant_preserved (cfg : temp_layer_threshold_config)
    (s : temp_layer_threshold_state) (e : input_event) (p1 p2 : Nat) (now : Int)
    (kev : zmk_position_state_changed)
    (hInv : Inv s) (hp1 : p1 % 256 < 128) :
    Inv temp_layer_threshold_init ∧
    Inv (temp_layer_threshold_handle_event cfg s e p1 p2 now).2.1 ∧
    Inv (position_state_changed_listener cfg s kev).1 ∧
    Inv (layer_disable_callback s).1 ∧
    Inv (accumulation_reset_callback s) := by
  refine ⟨by decide, ?_, ?_, ?_, ?_⟩
  · have hu := handle_event_unfold cfg s { event := e, param1 := p1, param2 := p2, now := now }
    dsimp only at hu
    rw [hu]
    split_ifs with hg hact hth
    · exact hInv
    · simpa [Inv, applyAccum_layer_active, applyAccum_active_layer] using hInv
    · have h8 : 0 ≤ toInt8 (p1 % 256) := by
        unfold toInt8
        split_ifs <;> omega
      simp [Inv, h8]
    · simpa [Inv, applyAccum_layer_active, applyAccum_active_layer] using hInv
  · unfold position_state_changed_listener
    split_ifs with hrel hdeact
    · exact hInv
    · simp [Inv]
    · simpa [Inv] using hInv
  · unfold layer_disable_callback
    split_ifs with hd
    · simp [Inv]
    · exact hInv
  · exact hInv

/-- C3 amended witness: with layer id 4 and threshold 0 the invariant is
preserved through an immediate activation from the initial state. -/
theorem C3_invariant_preserved_witness :
    Inv (temp_layer_threshold_handle_event
        { threshold := 0, threshold_time_ms := 100, require_prior_idle_ms := 0,
          excluded_positions := [] }
        temp_layer_threshold_init
        { type := 2, code := 0, value := 0 } 4 200 0).2.1 :=
  (C3_invariant_preserved
    { threshold := 0, threshold_time_ms := 100, require_prior_idle_ms := 0,
      excluded_positions := [] }
    temp_layer_threshold_init
    { type := 2, code := 0, value := 0 } 4 200 0
    { position := 0, state := false, timestamp := 0 }
    (by decide) (by decide)).2.1

theorem run_append (cfg : temp_layer_threshold_config)
    (l1 l2 : List MotionEv) : ∀ s : temp_layer_threshold_state,
    run cfg s (l1 ++ l2) =
      ((run cfg (run cfg s l1).1 l2).1,
       (run cfg s l1).2 ++ (run cfg (run cfg s l1).1 l2).2) := by
  induction l1 with
  | nil => intro s; simp [run]
  | cons e rest ih =>
    intro s
    simp only [List.cons_append, run, List.append_eq]
    rw [ih]
    simp [List.append_assoc]

/-- While the layer is active, a run of motion events emits no
layer-control call at all and leaves the layer active (whether or not
individual events pass the idle gate). -/
theorem run_active (cfg : temp_layer_threshold_config)
    (evs : List MotionEv) : ∀ s : temp_layer_threshold_state,
    s.layer_active = true →
    (run cfg s evs).2 = [] ∧ (run cfg s evs).1.layer_active = true := by
  induction evs with
  | nil => intro s h; exact ⟨rfl, h⟩
  | cons e rest ih =>
    intro s h
    have hstep := handle_event_active_no_effect cfg s e h
    have htail := ih (temp_layer_threshold_handle_event cfg s
      e.event e.param1 e.param2 e.now).2.1 hstep.1
    simp only [run]
    exact ⟨by rw [hstep.2.2, htail.1]; rfl, htail.2⟩

/-- While the layer is inactive, a run whose total accumulated motion
never reaches the threshold emits nothing, keeps the layer inactive,
leaves `last_tapped_time` alone, and accumulates exactly the events'
total magnitude. -/
theorem run_inactive_below (cfg : temp_layer_threshold_config)
    (evs : List MotionEv) : ∀ s : temp_layer_threshold_state,
    s.layer_active = false →
    (∀ e ∈ evs, gatePasses cfg s.last_tapped_time e) →
    s.accumulated_x + s.accumulated_y + accTotal evs < cfg.threshold →
    (run cfg s evs).2 = [] ∧
    (run cfg s evs).1.layer_active = false ∧
    (run cfg s evs).1.last_tapped_time = s.last_tapped_time ∧
    (run cfg s evs).1.accumulated_x + (run cfg s evs).1.accumulated_y =
      s.accumulated_x + s.accumulated_y + accTotal evs := by
  induction evs with
  | nil =>
    intro s h1 _ _
    refine ⟨rfl, h1, rfl, ?_⟩
    simp [run, accTotal]
  | cons e rest ih =>
    intro s h1 hg h3
    have hge : gatePasses cfg s.last_tapped_time e := hg e (List.mem_cons_self e rest)
    have hrest_nonneg : 0 ≤ accTotal rest := accTotal_nonneg rest
    have hcons : accTotal (e :: rest) = deltaMag e + accTotal rest := accTotal_cons e rest
    have hlow : s.accumulated_x + s.accumulated_y + deltaMag e < cfg.threshold := by
      omega
    have hstep := handle_event_inactive_below cfg s e h1 hge hlow
    have hx : (temp_layer_threshold_handle_event cfg s
        e.event e.param1 e.param2 e.now).2.1.accumulated_x +
        (temp_layer_threshold_handle_event cfg s
        e.event e.param1 e.param2 e.now).2.1.accumulated_y =
        s.accumulated_x + s.accumulated_y + deltaMag e := by
      rw [hstep]
      exact applyAccum_total s e
    have hla : (temp_layer_threshold_handle_event cfg s
        e.event e.param1 e.param2 e.now).2.1.layer_active = false := by
      rw [hstep]
      rw [show ({ applyAccum s e with
          reset_deadline := some (e.now + cfg.threshold_time_ms) } :
          temp_layer_threshold_state).layer_active =
          (applyAccum s e).layer_active from rfl]
      rw [applyAccum_layer_active]
      exact h1
    have hlt : (temp_layer_threshold_handle_event cfg s
        e.event e.param1 e.param2 e.now).2.1.last_tapped_time =
        s.last_tapped_time := by
      rw [hstep]
      rw [show ({ applyAccum s e with
          reset_deadline := some (e.now + cfg.threshold_time_ms) } :
          temp_layer_threshold_state).last_tapped_time =
          (applyAccum s e).last_tapped_time from rfl]
      exact applyAccum_last_tapped_time s e
    have htail := ih (temp_layer_threshold_handle_event cfg s
        e.event e.param1 e.param2 e.now).2.1 hla
      (by
        intro x hx2
        rw [hlt]
        exact hg x (List.mem_cons_of_mem e hx2))
      (by omega)
    simp only [run]
    refine ⟨?_, htail.2.1, ?_, ?_⟩
    · rw [htail.1]
      rw [show (temp_layer_threshold_handle_event cfg s
          e.event e.param1 e.param2 e.now).2.2 = [] by rw [hstep]]
      rfl
    · rw [htail.2.2.1, hlt]
    · rw [htail.2.2.2, hx]
      omega

theorem accTotal_append (l1 l2 : List MotionEv) :
    accTotal (l1 ++ l2) = accTotal l1 + accTotal l2 := by
  simp [accTotal]

/-- C1 amended: starting inactive, with every event passing the idle
gate, if the running total first reaches the threshold at event `k`
then the run emits nothing and stays inactive through the first `k`
events, event `k` activates (the stored `active_layer` being the
`int8_t` truncation of the given layer id), zeroes both accumulators,
schedules the disable deadline `param2` ms after that event, and the
whole run emits exactly one activation call. -/
theorem C1_first_crossing_activates (cfg : temp_layer_threshold_config)
    (s0 : temp_layer_threshold_state) (evs : List MotionEv) (k : Nat)
    (hk : k < evs.length)
    (h0 : s0.layer_active = false)
    (hgate : ∀ e ∈ evs, gatePasses cfg s0.last_tapped_time e)
    (hbefore : s0.accumulated_x + s0.accumulated_y +
      accTotal (List.take k evs) < cfg.threshold)
    (hhit : cfg.threshold ≤ s0.accumulated_x + s0.accumulated_y +
      accTotal (List.take (k+1) evs)) :
    (run cfg s0 (List.take k evs)).2 = [] ∧
    (run cfg s0 (List.take k evs)).1.layer_active = false ∧
    (run cfg s0 (List.take (k+1) evs)).1.layer_active = true ∧
    (run cfg s0 (List.take (k+1) evs)).1.active_layer =
      toInt8 (evs[k].param1 % 256) ∧
    (run cfg s0 (List.take (k+1) evs)).1.accumulated_x = 0 ∧
    (run cfg s0 (List.take (k+1) evs)).1.accumulated_y = 0 ∧
    (run cfg s0 (List.take (k+1) evs)).1.disable_deadline =
      some (evs[k].now + (evs[k].param2 : Int)) ∧
    (run cfg s0 evs).2 = [Effect.activate (evs[k].param1 % 256)] := by
  have htake : List.take (k+1) evs = List.take k evs ++ [evs[k]] :=
    (List.take_concat_get' evs k hk).symm
  have hpre := run_inactive_below cfg (List.take k evs) s0 h0
    (fun e he => hgate e (List.take_subset k evs he)) hbefore
  have hacc : accTotal (List.take (k+1) evs) =
      accTotal (List.take k evs) + deltaMag evs[k] := by
    rw [htake, accTotal_append, accTotal_cons]
    simp [accTotal]
  have hgk : gatePasses cfg
      (run cfg s0 (List.take k evs)).1.last_tapped_time evs[k] := by
    rw [hpre.2.2.1]
    exact hgate evs[k] (List.getElem_mem hk)
  have hhitk : cfg.threshold ≤
      (run cfg s0 (List.take k evs)).1.accumulated_x +
      (run cfg s0 (List.take k evs)).1.accumulated_y + deltaMag evs[k] := by
    have := hpre.2.2.2
    rw [hacc] at hhit
    omega
  have hstep := handle_event_inactive_hit cfg
    (run cfg s0 (List.take k evs)).1 evs[k] hpre.2.1 hgk hhitk
  have hS1 : run cfg s0 (List.take (k+1) evs) =
      ({ applyAccum (run cfg s0 (List.take k evs)).1 evs[k] with
           layer_active := true,
           active_layer := toInt8 (evs[k].param1 % 256),
           accumulated_x := 0, accumulated_y := 0,
           reset_deadline := some (evs[k].now + cfg.threshold_time_ms),
           disable_deadline := some (evs[k].now + (evs[k].param2 : Int)) },
       [Effect.activate (evs[k].param1 % 256)]) := by
    rw [htake, run_append, hpre.1]
    simp only [run]
    rw [hstep]
    rfl
  have hdrop := run_active cfg (List.drop (k+1) evs)
    (run cfg s0 (List.take (k+1) evs)).1 (by rw [hS1])
  refine ⟨hpre.1, hpre.2.1, by rw [hS1], by rw [hS1], by rw [hS1],
    by rw [hS1], by rw [hS1], ?_⟩
  conv_lhs =>
    rw [show evs = List.take (k+1) evs ++ List.drop (k+1) evs from
      (List.take_append_drop (k+1) evs).symm]
  rw [run_append, hdrop.1, hS1]
  rfl

/-- C1 counterexample: with layer id 128 the activation fires at the
first crossing as described, but `active_layer` is NOT set to the given
layer id — the `int8_t` store turns 128 into -128. -/
theorem C1_active_layer_not_given_id :
    (run { threshold := 1, threshold_time_ms := 100, require_prior_idle_ms := 0,
           excluded_positions := [] }
         temp_layer_threshold_init
         [{ event := { type := 2, code := 0, value := 5 },
            param1 := 128, param2 := 200, now := 0 }]).1.layer_active = true ∧
    (run { threshold := 1, threshold_time_ms := 100, require_prior_idle_ms := 0,
           excluded_positions := [] }
         temp_layer_threshold_init
         [{ event := { type := 2, code := 0, value := 5 },
            param1 := 128, param2 := 200, now := 0 }]).1.active_layer ≠ 128 := by
  decide

/-- C1 witness: spec scenario — threshold 50, events `X+30`, `Y+25`,
`X+10`: the run emits exactly one activation, at the second event. -/
theorem C1_first_crossing_activates_witness :
    (run { threshold := 50, threshold_time_ms := 100, require_prior_idle_ms := 0,
           excluded_positions := [] }
         temp_layer_threshold_init
         [{ event := { type := 2, code := 0, value := 30 },
            param1 := 4, param2 := 200, now := 0 },
          { event := { type := 2, code := 1, value := 25 },
            param1 := 4, param2 := 200, now := 10 },
          { event := { type := 2, code := 0, value := 10 },
            param1 := 4, param2 := 200, now := 20 }]).2 =
      [Effect.activate 4] := by
  have h := C1_first_crossing_activates
    { threshold := 50, threshold_time_ms := 100, require_prior_idle_ms := 0,
      excluded_positions := [] }
    temp_layer_threshold_init
    [{ event := { type := 2, code := 0, value := 30 },
       param1 := 4, param2 := 200, now := 0 },
     { event := { type := 2, code := 1, value := 25 },
       param1 := 4, param2 := 200, now := 10 },
     { event := { type := 2, code := 0, value := 10 },
       param1 := 4, param2 := 200, now := 20 }]
    1 (by decide) rfl (by decide) (by decide) (by decide)
  exact h.2.2.2.2.2.2.2

/-- C10: deactivating the layer — whether through the disable-timer
callback or through any key-position event — leaves both accumulators
untouched, and a motion event on an inactive state whose stale total
plus the event's own magnitude meets the threshold immediately
activates the layer. -/
theorem C10_accumulators_survive_deactivation
    (cfg : temp_layer_threshold_config)
    (s s2 : temp_layer_threshold_state) (kev : zmk_position_state_changed)
    (m : MotionEv)
    (hinact : s2.layer_active = false)
    (hgate : gatePasses cfg s2.last_tapped_time m)
    (hhit : cfg.threshold ≤ s2.accumulated_x + s2.accumulated_y + deltaMag m) :
    (layer_disable_callback s).1.accumulated_x = s.accumulated_x ∧
    (layer_disable_callback s).1.accumulated_y = s.accumulated_y ∧
    (position_state_changed_listener cfg s kev).1.accumulated_x = s.accumulated_x ∧
    (position_state_changed_listener cfg s kev).1.accumulated_y = s.accumulated_y ∧
    (temp_layer_threshold_handle_event cfg s2
        m.event m.param1 m.param2 m.now).2.2 =
      [Effect.activate (m.param1 % 256)] ∧
    (temp_layer_threshold_handle_event cfg s2
        m.event m.param1 m.param2 m.now).2.1.layer_active = true := by
  have hstep := handle_event_inactive_hit cfg s2 m hinact hgate hhit
  refine ⟨?_, ?_, ?_, ?_, by rw [hstep], by rw [hstep]⟩
  · unfold layer_disable_callback; split_ifs <;> rfl
  · unfold layer_disable_callback; split_ifs <;> rfl
  · unfold position_state_changed_listener; split_ifs <;> rfl
  · unfold position_state_changed_listener; split_ifs <;> rfl

/-- C10 witness: 55 units accumulated while active survive the
disable-timer deactivation, and the next motion event (`X+1`, stale
total 56 ≥ 50) re-activates immediately. -/
theorem C10_accumulators_survive_deactivation_witness :
    (layer_disable_callback
        { temp_layer_threshold_init with
            layer_active := true, active_layer := 4,
            accumulated_x := 55, disable_deadline := some 300 }).1.accumulated_x
      = 55 ∧
    (temp_layer_threshold_handle_event
        { threshold := 50, threshold_time_ms := 100, require_prior_idle_ms := 0,
          excluded_positions := [] }
        (layer_disable_callback
          { temp_layer_threshold_init with
              layer_active := true, active_layer := 4,
              accumulated_x := 55, disable_deadline := some 300 }).1
        { type := 2, code := 0, value := 1 } 4 200 400).2.2 =
      [Effect.activate 4] := by
  have h := C10_accumulators_survive_deactivation
    { threshold := 50, threshold_time_ms := 100, require_prior_idle_ms := 0,
      excluded_positions := [] }
    { temp_layer_threshold_init with
        layer_active := true, active_layer := 4,
        accumulated_x := 55, disable_deadline := some 300 }
    (layer_disable_callback
      { temp_layer_threshold_init with
          layer_active := true, active_layer := 4,
          accumulated_x := 55, disable_deadline := some 300 }).1
    { position := 0, state := false, timestamp := 0 }
    { event := { type := 2, code := 0, value := 1 },
      param1 := 4, param2 := 200, now := 400 }
    (by decide) (by decide) (by decide)
  exact ⟨h.1, h.2.2.2.2.1⟩

end TempLayerThreshold
